import Mathlib

/-!
Verification development for the multicast-DNS discovery adapter layer.

The repository bridges a callback-driven native mDNS client (avahi) into a
synchronous listener interface.  This file gives a shallow embedding of the
three source files:

* `service_discovery/avahi_wrapper.rs` — marshaling helpers
  (`parse_c_string`, `parse_address`, `parse_txt`), the two C-ABI callback
  trampolines (`browse_callback`, `resolve_callback`), and the wrapper
  operations (`start_browser` event loop, `resolve`, `initialize_client`);
* `adapters/fake/adapter.rs` — the fallback adapter
  (`FakeAdapter.start_discovery`, `FakeAdapter.resolve`,
  `FakeAdapter.stop_discovery`);
* `service_discovery/avahi_service_discovery_manager.rs` — the manager
  delegating to the wrapper.

Native pointers are modelled as `Option` values (`none` = null); native
nul-terminated byte buffers as `List Nat` of byte values; panics are modelled
explicitly (an outcome flag, or a truncated action trace).  External native
calls (the avahi library itself) are inputs to the model: each modelled
function receives the data the native call would have produced.
-/

/-! ## UTF-8 byte-level model

Rust's `CStr::to_string_lossy` decodes the bytes of a nul-terminated native
string as UTF-8, substituting replacement characters for invalid sequences.
We model the byte buffer as a `List Nat` (the content bytes, terminator
excluded) and implement the standard UTF-8 decoding over it. -/

/-- Standard UTF-8 encoding of one Unicode scalar value (1–4 bytes). -/
def utf8EncodeChar (c : Char) : List Nat :=
  if c.toNat < 0x80 then [c.toNat]
  else if c.toNat < 0x800 then [0xC0 + c.toNat / 64, 0x80 + c.toNat % 64]
  else if c.toNat < 0x10000 then
    [0xE0 + c.toNat / 4096, 0x80 + (c.toNat / 64) % 64, 0x80 + c.toNat % 64]
  else
    [0xF0 + c.toNat / 262144, 0x80 + (c.toNat / 4096) % 64, 0x80 + (c.toNat / 64) % 64,
     0x80 + c.toNat % 64]

/-- UTF-8 encoding of a character sequence. -/
def utf8EncodeList : List Char → List Nat
  | [] => []
  | c :: cs => utf8EncodeChar c ++ utf8EncodeList cs

/-- UTF-8 encoding of a string's content bytes. -/
def utf8Encode (s : String) : List Nat :=
  utf8EncodeList s.data

/-- Build a `Char` from a codepoint when it is a valid Unicode scalar value. -/
def mkChar? (v : Nat) (rest : List Nat) : Option (Char × List Nat) :=
  if h : Nat.isValidChar v then some (Char.ofNatAux v h, rest) else none

/-- Decode one UTF-8 character whose leading byte is `b1` and whose following
bytes are `rest`; `none` on an invalid/incomplete sequence (strict checks:
continuation ranges, no overlong forms, no surrogates). -/
def utf8DecodeOneAux (b1 : Nat) (rest : List Nat) : Option (Char × List Nat) :=
  if b1 < 0x80 then mkChar? b1 rest
    else if 0xC2 ≤ b1 ∧ b1 ≤ 0xDF then
      match rest with
      | b2 :: rest2 =>
        if 0x80 ≤ b2 ∧ b2 ≤ 0xBF then
          mkChar? ((b1 - 0xC0) * 64 + (b2 - 0x80)) rest2
        else none
      | [] => none
    else if 0xE0 ≤ b1 ∧ b1 ≤ 0xEF then
      match rest with
      | b2 :: b3 :: rest3 =>
        if (0x80 ≤ b2 ∧ b2 ≤ 0xBF) ∧ (0x80 ≤ b3 ∧ b3 ≤ 0xBF) ∧
           (b1 = 0xE0 → 0xA0 ≤ b2) ∧ (b1 = 0xED → b2 ≤ 0x9F) then
          mkChar? ((b1 - 0xE0) * 4096 + (b2 - 0x80) * 64 + (b3 - 0x80)) rest3
        else none
      | _ => none
    else if 0xF0 ≤ b1 ∧ b1 ≤ 0xF4 then
      match rest with
      | b2 :: b3 :: b4 :: rest4 =>
        if (0x80 ≤ b2 ∧ b2 ≤ 0xBF) ∧ (0x80 ≤ b3 ∧ b3 ≤ 0xBF) ∧
           (0x80 ≤ b4 ∧ b4 ≤ 0xBF) ∧
           (b1 = 0xF0 → 0x90 ≤ b2) ∧ (b1 = 0xF4 → b2 ≤ 0x8F) then
          mkChar? ((b1 - 0xF0) * 262144 + (b2 - 0x80) * 4096 +
                   (b3 - 0x80) * 64 + (b4 - 0x80)) rest4
        else none
      | _ => none
    else none

/-- Decode one UTF-8 character from the head of a byte list. -/
def utf8DecodeOne : List Nat → Option (Char × List Nat)
  | [] => none
  | b1 :: rest => utf8DecodeOneAux b1 rest

/-- The Unicode replacement character emitted for invalid sequences. -/
def replacementChar : Char := '�'

/-- Lossy UTF-8 decoding: decode characters one at a time; on an invalid
sequence emit a replacement character and resume past one byte (best-effort
model of the substitution policy).  `fuel` bounds the recursion; it is
instantiated with the byte count, which suffices because every step consumes
at least one byte. -/
def utf8LossyAux : Nat → List Nat → List Char
  | 0, _ => []
  | _, [] => []
  | fuel + 1, b :: rest =>
    match utf8DecodeOne (b :: rest) with
    | some (c, rem) => c :: utf8LossyAux fuel rem
    | none => replacementChar :: utf8LossyAux fuel rest

/-- Model of `CStr::to_string_lossy().into_owned()` on the content bytes. -/
def to_string_lossy (bytes : List Nat) : String :=
  String.mk (utf8LossyAux bytes.length bytes)

/-! ## Marshaling utilities (`avahi_wrapper.rs` lines 15–46) -/

/-- `parse_c_string`: null pointer (`none`) yields `None`; otherwise the
nul-terminated bytes are decoded lossily into an owned string. -/
def parse_c_string (c_string : Option (List Nat)) : Option String :=
  match c_string with
  | none => none
  | some bytes => some (to_string_lossy bytes)

/-- `parse_address`: null pointer yields `None`; otherwise the native
`avahi_address_snprint` renderer writes the address's textual form into a
buffer which is decoded with `parse_c_string`.  The renderer is a native
call, modelled by its output bytes. -/
def parse_address (address : Option (List Nat)) : Option String :=
  match address with
  | none => none
  | some rendered => parse_c_string (some rendered)

/-- Result of `parse_txt`: the decoded text and the number of `avahi_free`
calls performed on the rendered buffer. -/
structure TxtParseResult where
  txt : Option String
  frees : Nat
deriving DecidableEq, Repr

/-- `parse_txt`: null string-list pointer yields `None` with no render and no
free; otherwise `avahi_string_list_to_string` renders a buffer (a native
call, modelled by its output: `none` for a null render, `some bytes`
otherwise), the buffer is decoded with `parse_c_string`, and `avahi_free`
is called on the rendered pointer exactly once, unconditionally, before
returning. -/
def parse_txt (txt : Option (Option (List Nat))) : TxtParseResult :=
  match txt with
  | none => { txt := none, frees := 0 }
  | some rendered =>
    let decoded := parse_c_string rendered
    { txt := decoded, frees := 1 }

/-! ## Round-trip lemmas for the UTF-8 model -/

theorem charOfNatAux_toNat (c : Char) (h : Nat.isValidChar c.toNat) :
    Char.ofNatAux c.toNat h = c := by
  rcases c with ⟨⟨bv⟩, hvalid⟩
  rfl

theorem mkChar?_toNat (c : Char) (rest : List Nat) :
    mkChar? c.toNat rest = some (c, rest) := by
  unfold mkChar?
  split
  · rw [charOfNatAux_toNat]
  · rename_i hbad
    exact absurd c.valid hbad

theorem utf8EncodeChar_length_pos (c : Char) : 1 ≤ (utf8EncodeChar c).length := by
  unfold utf8EncodeChar
  split_ifs <;> simp

theorem utf8DecodeOne_encode (c : Char) (tl : List Nat) :
    utf8DecodeOne (utf8EncodeChar c ++ tl) = some (c, tl) := by
  have hvalid : c.toNat < 0xd800 ∨ (0xdfff < c.toNat ∧ c.toNat < 0x110000) := c.valid
  unfold utf8EncodeChar
  split_ifs with h1 h2 h3
  · -- one byte
    simp only [List.cons_append, List.nil_append]
    show utf8DecodeOneAux c.toNat tl = some (c, tl)
    unfold utf8DecodeOneAux
    rw [if_pos h1]
    exact mkChar?_toNat c tl
  · -- two bytes
    simp only [List.cons_append, List.nil_append]
    show utf8DecodeOneAux (0xC0 + c.toNat / 64) ((0x80 + c.toNat % 64) :: tl) = some (c, tl)
    unfold utf8DecodeOneAux
    rw [if_neg (by omega), if_pos (by omega)]
    show (if 0x80 ≤ 0x80 + c.toNat % 64 ∧ 0x80 + c.toNat % 64 ≤ 0xBF then
        mkChar? ((0xC0 + c.toNat / 64 - 0xC0) * 64 + (0x80 + c.toNat % 64 - 0x80)) tl
      else none) = some (c, tl)
    rw [if_pos (by omega)]
    have hv : (0xC0 + c.toNat / 64 - 0xC0) * 64 + (0x80 + c.toNat % 64 - 0x80) = c.toNat := by
      omega
    rw [hv]
    exact mkChar?_toNat c tl
  · -- three bytes
    simp only [List.cons_append, List.nil_append]
    show utf8DecodeOneAux (0xE0 + c.toNat / 4096)
        ((0x80 + c.toNat / 64 % 64) :: (0x80 + c.toNat % 64) :: tl) = some (c, tl)
    unfold utf8DecodeOneAux
    rw [if_neg (by omega), if_neg (by omega), if_pos (by omega)]
    show (if (0x80 ≤ 0x80 + c.toNat / 64 % 64 ∧ 0x80 + c.toNat / 64 % 64 ≤ 0xBF) ∧
          (0x80 ≤ 0x80 + c.toNat % 64 ∧ 0x80 + c.toNat % 64 ≤ 0xBF) ∧
          (0xE0 + c.toNat / 4096 = 0xE0 → 0xA0 ≤ 0x80 + c.toNat / 64 % 64) ∧
          (0xE0 + c.toNat / 4096 = 0xED → 0x80 + c.toNat / 64 % 64 ≤ 0x9F) then
        mkChar? ((0xE0 + c.toNat / 4096 - 0xE0) * 4096 +
          (0x80 + c.toNat / 64 % 64 - 0x80) * 64 + (0x80 + c.toNat % 64 - 0x80)) tl
      else none) = some (c, tl)
    rw [if_pos (by omega)]
    have hv : (0xE0 + c.toNat / 4096 - 0xE0) * 4096 +
        (0x80 + c.toNat / 64 % 64 - 0x80) * 64 + (0x80 + c.toNat % 64 - 0x80)
        = c.toNat := by omega
    rw [hv]
    exact mkChar?_toNat c tl
  · -- four bytes
    simp only [List.cons_append, List.nil_append]
    show utf8DecodeOneAux (0xF0 + c.toNat / 262144)
        ((0x80 + c.toNat / 4096 % 64) :: (0x80 + c.toNat / 64 % 64) ::
         (0x80 + c.toNat % 64) :: tl) = some (c, tl)
    unfold utf8DecodeOneAux
    rw [if_neg (by omega), if_neg (by omega), if_neg (by omega), if_pos (by omega)]
    show (if (0x80 ≤ 0x80 + c.toNat / 4096 % 64 ∧ 0x80 + c.toNat / 4096 % 64 ≤ 0xBF) ∧
          (0x80 ≤ 0x80 + c.toNat / 64 % 64 ∧ 0x80 + c.toNat / 64 % 64 ≤ 0xBF) ∧
          (0x80 ≤ 0x80 + c.toNat % 64 ∧ 0x80 + c.toNat % 64 ≤ 0xBF) ∧
          (0xF0 + c.toNat / 262144 = 0xF0 → 0x90 ≤ 0x80 + c.toNat / 4096 % 64) ∧
          (0xF0 + c.toNat / 262144 = 0xF4 → 0x80 + c.toNat / 4096 % 64 ≤ 0x8F) then
        mkChar? ((0xF0 + c.toNat / 262144 - 0xF0) * 262144 +
          (0x80 + c.toNat / 4096 % 64 - 0x80) * 4096 +
          (0x80 + c.toNat / 64 % 64 - 0x80) * 64 + (0x80 + c.toNat % 64 - 0x80)) tl
      else none) = some (c, tl)
    rw [if_pos (by omega)]
    have hv : (0xF0 + c.toNat / 262144 - 0xF0) * 262144 +
        (0x80 + c.toNat / 4096 % 64 - 0x80) * 4096 +
        (0x80 + c.toNat / 64 % 64 - 0x80) * 64 + (0x80 + c.toNat % 64 - 0x80)
        = c.toNat := by omega
    rw [hv]
    exact mkChar?_toNat c tl

theorem utf8LossyAux_cons (fuel : Nat) (b : Nat) (rest : List Nat) :
    utf8LossyAux (fuel + 1) (b :: rest) =
      match utf8DecodeOne (b :: rest) with
      | some (c, rem) => c :: utf8LossyAux fuel rem
      | none => replacementChar :: utf8LossyAux fuel rest := rfl

theorem utf8LossyAux_encode (cs : List Char) (fuel : Nat)
    (h : (utf8EncodeList cs).length ≤ fuel) :
    utf8LossyAux fuel (utf8EncodeList cs) = cs := by
  induction cs generalizing fuel with
  | nil =>
    cases fuel <;> rfl
  | cons c cs ih =>
    rcases hebytes : utf8EncodeChar c with _ | ⟨b, bs⟩
    · have hpos := utf8EncodeChar_length_pos c
      rw [hebytes] at hpos
      simp at hpos
    · have hcons : utf8EncodeList (c :: cs) = b :: (bs ++ utf8EncodeList cs) := by
        show utf8EncodeChar c ++ utf8EncodeList cs = _
        rw [hebytes]
        simp
      rw [hcons] at h ⊢
      have hdec : utf8DecodeOne (b :: (bs ++ utf8EncodeList cs))
          = some (c, utf8EncodeList cs) := by
        have hd := utf8DecodeOne_encode c (utf8EncodeList cs)
        rw [hebytes] at hd
        simpa using hd
      rcases fuel with _ | fuel
      · simp at h
      · rw [utf8LossyAux_cons, hdec]
        show c :: utf8LossyAux fuel (utf8EncodeList cs) = c :: cs
        rw [ih fuel (by simp at h ⊢; omega)]

theorem to_string_lossy_encode (s : String) : to_string_lossy (utf8Encode s) = s := by
  show String.mk (utf8LossyAux (utf8Encode s).length (utf8Encode s)) = s
  unfold utf8Encode
  rw [utf8LossyAux_encode s.data _ (Nat.le_refl _)]

/-! ## Data model

The avahi enum types come from `bindings/avahi.rs`, which is not under src/;
they are modelled from the spec's event taxonomy ("new-service / all-for-now
/ failure / other" for browsing; "resolved / failure" for resolving),
following the avahi names used in `avahi_wrapper.rs`. -/

/-- Modelled from the spec: browser event kinds, as matched in
`AvahiWrapper::start_browser`; the declaring file `bindings/avahi.rs` is not
under src/. -/
inductive AvahiBrowserEvent where
  | AVAHI_BROWSER_NEW
  | AVAHI_BROWSER_REMOVE
  | AVAHI_BROWSER_CACHE_EXHAUSTED
  | AVAHI_BROWSER_ALL_FOR_NOW
  | AVAHI_BROWSER_FAILURE
deriving DecidableEq, Repr

/-- Modelled from the spec: resolver event kinds; the declaring file
`bindings/avahi.rs` is not under src/. -/
inductive AvahiResolverEvent where
  | AVAHI_RESOLVER_FOUND
  | AVAHI_RESOLVER_FAILURE
deriving DecidableEq, Repr

/-- `BrowseCallbackParameters` (`avahi_wrapper.rs` lines 48–57): one decoded
browse event as pushed through the channel. -/
structure BrowseCallbackParameters where
  event : AvahiBrowserEvent
  interface : Int
  protocol : Int
  name : Option String
  service_type : Option String
  domain : Option String
  flags : Nat
deriving DecidableEq, Repr

/-- `ResolveCallbackParameters` (`avahi_wrapper.rs` lines 59–72): one decoded
resolve event as pushed through the channel. -/
structure ResolveCallbackParameters where
  event : AvahiResolverEvent
  address : Option String
  interface : Int
  port : Nat
  protocol : Int
  name : Option String
  service_type : Option String
  domain : Option String
  host_name : Option String
  txt : Option String
  flags : Nat
deriving DecidableEq, Repr

/-- Modelled from the spec: `ServiceDescription` is declared in
`service_discovery/service_discovery_manager.rs`, which is not under src/;
its field shapes are reconstructed from its construction sites in
`avahi_wrapper.rs` (in src/), where every textual field is a plain string
slice and an absent value is written as the empty string slice, `port` is a
16-bit number, and `interface`/`protocol` are machine integers. -/
structure ServiceDescription where
  address : String
  domain : String
  host_name : String
  interface : Int
  name : String
  port : Nat
  protocol : Int
  txt : String
  type_name : String
deriving DecidableEq, Repr

/-! ## Callback bridge (`avahi_wrapper.rs` lines 82–143)

Each trampoline decodes its native arguments into a parameters record and
pushes it into the channel with `sender.send(parameters).unwrap()`.  An mpsc
channel send never blocks; it fails exactly when the receiving end has been
dropped, in which case the `.unwrap()` panics.  The model takes the liveness
of the receiving end as input and returns the outcome. -/

/-- Outcome of one trampoline invocation: either one event was pushed into
the channel, or the function panicked (the send's `.unwrap()` failed). -/
inductive CallbackOutcome (α : Type) where
  | sent (a : α)
  | panicked
deriving DecidableEq, Repr

/-- `browse_callback`: decodes the native strings (null ↦ `None`), builds the
parameters record, and sends it; panics iff the channel's receiving end has
been dropped (`receiver_alive = false`). -/
def browse_callback (receiver_alive : Bool) (interface protocol : Int)
    (event : AvahiBrowserEvent)
    (name service_type domain : Option (List Nat)) (flags : Nat) :
    CallbackOutcome BrowseCallbackParameters :=
  let parameters : BrowseCallbackParameters :=
    { event := event, interface := interface, protocol := protocol,
      name := parse_c_string name, service_type := parse_c_string service_type,
      domain := parse_c_string domain, flags := flags }
  if receiver_alive then .sent parameters else .panicked

/-- `resolve_callback`: decodes the native strings, address and text-record
list (null ↦ `None`), builds the parameters record, and sends it; panics iff
the channel's receiving end has been dropped. -/
def resolve_callback (receiver_alive : Bool) (interface protocol : Int)
    (event : AvahiResolverEvent)
    (name service_type domain host_name : Option (List Nat))
    (address : Option (List Nat)) (port : Nat)
    (txt : Option (Option (List Nat))) (flags : Nat) :
    CallbackOutcome ResolveCallbackParameters :=
  let parameters : ResolveCallbackParameters :=
    { event := event, address := parse_address address, interface := interface,
      port := port, protocol := protocol, host_name := parse_c_string host_name,
      name := parse_c_string name, service_type := parse_c_string service_type,
      domain := parse_c_string domain, txt := (parse_txt txt).txt, flags := flags }
  if receiver_alive then .sent parameters else .panicked

/-! ## Wrapper event loop (`avahi_wrapper.rs` lines 160–213) -/

/-- One listener invocation made by the browsing event loop. -/
inductive BrowseListenerCall where
  | discovered (s : ServiceDescription)
  | allDiscovered
deriving DecidableEq, Repr

/-- How the `start_browser` event loop ended. -/
inductive LoopExit where
  | returned
  | panicked
  | drained
deriving DecidableEq, Repr

/-- The `ServiceDescription` built for an `AVAHI_BROWSER_NEW` event in
`start_browser`: `address`/`host_name`/`txt` are the empty string, `port` is
0, and `name`/`domain` are the event's unwrapped fields. -/
def browseDescription (service_type : String) (a : BrowseCallbackParameters) :
    ServiceDescription :=
  { address := "", domain := a.domain.getD "", host_name := "",
    interface := a.interface, name := a.name.getD "", port := 0,
    protocol := a.protocol, txt := "", type_name := service_type }

/-- Model of the blocking event loop of `AvahiWrapper::start_browser`: the
input list is the sequence of events the channel delivers, in FIFO order;
the result is the sequence of listener invocations performed, together with
how the loop ended.  On `AVAHI_BROWSER_NEW` the loop unwraps `domain` and
`name` — an absent value panics the calling thread (`.panicked`, no further
invocations) — and invokes `on_service_discovered`; on
`AVAHI_BROWSER_ALL_FOR_NOW` it invokes `on_all_discovered` and breaks
(`.returned`, later events are never received); any other event is logged
and skipped.  An exhausted list models a closed channel (`.drained`). -/
def AvahiWrapper.start_browser (service_type : String) :
    List BrowseCallbackParameters → List BrowseListenerCall × LoopExit
  | [] => ([], .drained)
  | a :: rest =>
    match a.event with
    | .AVAHI_BROWSER_NEW =>
      match a.domain, a.name with
      | some _, some _ =>
        let step := AvahiWrapper.start_browser service_type rest
        (.discovered (browseDescription service_type a) :: step.1, step.2)
      | _, _ => ([], .panicked)
    | .AVAHI_BROWSER_ALL_FOR_NOW => ([.allDiscovered], .returned)
    | _ => AvahiWrapper.start_browser service_type rest

/-! ## Wrapper resolution (`avahi_wrapper.rs` lines 215–258) -/

/-- One observable action of `AvahiWrapper::resolve`: creating the native
resolver, invoking `on_service_resolved`, or freeing the resolver. -/
inductive ResolveAction where
  | createResolver
  | resolvedCall (s : ServiceDescription)
  | freeResolver
deriving DecidableEq, Repr

/-- Model of `AvahiWrapper::resolve` given the one event `raw` awaited from
the channel: the resolver is created, then every optional field of `raw` is
unwrapped to build the delivered description (the event kind itself is never
inspected; a failure event carries null fields, so the first `.unwrap()`
panics — `true` in the second component — and the trailing
`avahi_service_resolver_free` is never reached); on success the listener is
invoked and the resolver freed before returning. -/
def AvahiWrapper.resolve (raw : ResolveCallbackParameters) :
    List ResolveAction × Bool :=
  match raw.address, raw.domain, raw.host_name, raw.name, raw.txt, raw.service_type with
  | some address, some domain, some host_name, some nm, some txt, some st =>
    ([.createResolver,
      .resolvedCall { address := address, domain := domain, host_name := host_name,
                      interface := raw.interface, name := nm, port := raw.port,
                      protocol := raw.protocol, txt := txt, type_name := st },
      .freeResolver], false)
  | _, _, _, _, _, _ => ([.createResolver], true)

/-! ## Wrapper initialization (`avahi_wrapper.rs` lines 270–301) -/

/-- Model of `AvahiWrapper::initialize_client` given the outcome of the
single `avahi_client_new` call (`none` = null handle, with the out-parameter
error code) and the native `avahi_strerror` function: a null handle is fatal
— the native error string is rendered and attached to the panic message, and
there is no second creation attempt — otherwise the handle is stored in the
wrapper's `client` cell. -/
def AvahiWrapper.initialize_client (strerror : Int → String)
    (avahi_client : Option Nat) (client_error_code : Int) :
    Except String (Option Nat) :=
  match avahi_client with
  | none => .error ("Failed to create avahi client: " ++ strerror client_error_code)
  | some c => .ok (some c)

/-! ## Stopping discovery

`AvahiServiceDiscoveryManager::stop_service_discovery` (in src/) delegates to
`AvahiWrapper::stop_browser`, whose body is not under src/ (the wrapper file
in src/ predates it); it is modelled from the spec. -/

/-- The wrapper's interior-mutable resource cells (`avahi_wrapper.rs` lines
145–149), with opaque handles as numbers. -/
structure AvahiWrapperState where
  client : Option Nat
  poll : Option Nat
  service_browser : Option Nat
deriving DecidableEq, Repr

/-- Modelled from the spec: `AvahiWrapper::stop_browser` "releases the active
browser resource; is safe to call from `Stopped` (no-op) or `Browsing`" —
the function body is not under src/.  Returns the new state and the list of
handles released by this call. -/
def AvahiWrapper.stop_browser (st : AvahiWrapperState) :
    AvahiWrapperState × List Nat :=
  match st.service_browser with
  | none => (st, [])
  | some b => ({ st with service_browser := none }, [b])

/-- `AvahiServiceDiscoveryManager::stop_service_discovery`
(`avahi_service_discovery_manager.rs` lines 32–35): delegates to
`stop_browser`. -/
def AvahiServiceDiscoveryManager.stop_service_discovery
    (st : AvahiWrapperState) : AvahiWrapperState × List Nat :=
  AvahiWrapper.stop_browser st

/-! ## Fallback adapter (`adapters/fake/adapter.rs`) -/

/-- `ServiceProtocol` as used by the fake adapter's `ServiceInfo`; declared
in `discovery/discovery_manager.rs`, which is not under src/.  Modelled from
the spec: an address-family tag (IPv4/IPv6/unspecified). -/
inductive ServiceProtocol where
  | IPv4
  | IPv6
  | Unspecified
deriving DecidableEq, Repr

/-- Modelled from the spec: `ServiceInfo` is declared in
`discovery/discovery_manager.rs`, which is not under src/; field shapes are
reconstructed from its construction sites in `adapters/fake/adapter.rs` (in
src/), where textual fields are optional owned strings. -/
structure ServiceInfo where
  address : Option String
  domain : Option String
  host_name : Option String
  interface : Int
  name : Option String
  port : Nat
  protocol : ServiceProtocol
  txt : Option String
  type_name : Option String
deriving DecidableEq, Repr

/-- Presence of the optional caller-supplied discovery callbacks
(`DiscoveryListeners` holds two `Option`al function references). -/
structure DiscoveryListeners where
  on_service_discovered : Bool
  on_all_discovered : Bool
deriving DecidableEq, Repr

/-- Presence of the optional resolved-one callback (`ResolveListeners`). -/
structure ResolveListeners where
  on_service_resolved : Bool
deriving DecidableEq, Repr

/-- One listener invocation made by the fake adapter. -/
inductive FakeDiscoveryCall where
  | discovered (s : ServiceInfo)
  | allDiscovered
deriving DecidableEq, Repr

/-- One listener invocation made by the fake adapter's resolver. -/
inductive FakeResolveCall where
  | resolved (s : ServiceInfo)
deriving DecidableEq, Repr

/-- `FakeAdapter::start_discovery`: prints a warning, then, if the
discovered-one listener is present, invokes it once with the synthetic
placeholder description (`domain = "local"`, `name = "fake"`,
`interface = 1`, IPv4, `port = 0`, `type_name` = the caller's requested
type, everything else absent); then, if the discovered-all listener is
present, invokes it once.  The result is the ordered list of listener
invocations. -/
def FakeAdapter.start_discovery (service_type : String)
    (listeners : DiscoveryListeners) : List FakeDiscoveryCall :=
  (if listeners.on_service_discovered then
    [FakeDiscoveryCall.discovered
      { address := none, domain := some "local", host_name := none,
        interface := 1, name := some "fake", port := 0,
        protocol := .IPv4, txt := none, type_name := some service_type }]
   else []) ++
  (if listeners.on_all_discovered then [FakeDiscoveryCall.allDiscovered] else [])

/-- `FakeAdapter::resolve`: builds a description that copies `domain`,
`interface`, `name`, `protocol`, `type_name` from the input and sets
`address`, `host_name`, `port`, `txt` to fixed synthetic values; if the
resolved-one listener is present it is invoked once with it. -/
def FakeAdapter.resolve (service : ServiceInfo)
    (listeners : ResolveListeners) : List FakeResolveCall :=
  let service : ServiceInfo :=
    { address := some "192.168.1.1", domain := service.domain,
      host_name := some "fake.local", interface := service.interface,
      name := service.name, port := 80, protocol := service.protocol,
      txt := some "\"model=Xserve\"", type_name := service.type_name }
  if listeners.on_service_resolved then [FakeResolveCall.resolved service] else []

/-- `FakeAdapter::stop_discovery` has an empty body: it performs no listener
invocation and releases nothing; the result is the (empty) list of released
resources. -/
def FakeAdapter.stop_discovery : List Nat := []

/-! ## Theorems about the browsing event loop -/

theorem start_browser_append_new (t : String)
    (pre rest : List BrowseCallbackParameters)
    (hpre : ∀ p ∈ pre, p.event = AvahiBrowserEvent.AVAHI_BROWSER_NEW ∧
      p.name.isSome ∧ p.domain.isSome) :
    AvahiWrapper.start_browser t (pre ++ rest)
      = (pre.map (fun p => BrowseListenerCall.discovered (browseDescription t p))
          ++ (AvahiWrapper.start_browser t rest).1,
         (AvahiWrapper.start_browser t rest).2) := by
  induction pre with
  | nil => simp
  | cons p ps ih =>
    obtain ⟨hev, hn, hd⟩ := hpre p (List.mem_cons_self p ps)
    obtain ⟨ev, pi, pp, nm, st, dm, fl⟩ := p
    dsimp only at hev hn hd
    subst hev
    rcases nm with _ | n
    · simp at hn
    rcases dm with _ | d
    · simp at hd
    have hstep : AvahiWrapper.start_browser t
        (({ event := .AVAHI_BROWSER_NEW, interface := pi, protocol := pp, name := some n,
            service_type := st, domain := some d, flags := fl } :
          BrowseCallbackParameters) :: (ps ++ rest))
        = (BrowseListenerCall.discovered (browseDescription t
            { event := .AVAHI_BROWSER_NEW, interface := pi, protocol := pp, name := some n,
              service_type := st, domain := some d, flags := fl })
            :: (AvahiWrapper.start_browser t (ps ++ rest)).1,
           (AvahiWrapper.start_browser t (ps ++ rest)).2) := rfl
    show AvahiWrapper.start_browser t
        (({ event := .AVAHI_BROWSER_NEW, interface := pi, protocol := pp, name := some n,
            service_type := st, domain := some d, flags := fl } :
          BrowseCallbackParameters) :: (ps ++ rest)) = _
    rw [hstep, ih (fun q hq => hpre q (List.mem_cons_of_mem _ hq))]
    simp

theorem start_browser_all_for_now (t : String) (afn : BrowseCallbackParameters)
    (rest : List BrowseCallbackParameters)
    (hafn : afn.event = AvahiBrowserEvent.AVAHI_BROWSER_ALL_FOR_NOW) :
    AvahiWrapper.start_browser t (afn :: rest)
      = ([BrowseListenerCall.allDiscovered], LoopExit.returned) := by
  obtain ⟨ev, pi, pp, nm, st, dm, fl⟩ := afn
  dsimp only at hafn
  subst hafn
  rfl

theorem start_browser_new_absent_panics (t : String) (e : BrowseCallbackParameters)
    (rest : List BrowseCallbackParameters)
    (he : e.event = AvahiBrowserEvent.AVAHI_BROWSER_NEW)
    (habs : e.name = none ∨ e.domain = none) :
    AvahiWrapper.start_browser t (e :: rest) = ([], LoopExit.panicked) := by
  obtain ⟨ev, pi, pp, nm, st, dm, fl⟩ := e
  dsimp only at he habs
  subst he
  rcases habs with h | h
  · subst h
    rcases dm with _ | d <;> rfl
  · subst h
    rcases nm with _ | n <;> rfl

/-- C1 (as stated, counterexample): one "new service" browse event whose
native `name` and `domain` pointers were null, followed by "all for now".
The claim requires `on_service_discovered` to be invoked once and
`on_all_discovered` once; instead the loop panics on the `unwrap` of the
absent field before any listener invocation, so the trace is empty and the
loop ends panicked, not returned. -/
theorem C1_counterexample :
    AvahiWrapper.start_browser "_http._tcp"
      [{ event := .AVAHI_BROWSER_NEW, interface := 0, protocol := 0, name := none,
         service_type := none, domain := none, flags := 0 },
       { event := .AVAHI_BROWSER_ALL_FOR_NOW, interface := 0, protocol := 0, name := none,
         service_type := none, domain := none, flags := 0 }]
      = ([], LoopExit.panicked) := rfl

/-- C1 (amended): for every sequence of N new-service browse events **each
carrying a present name and a present domain** followed by one all-for-now
event (and anything after it), the listener's `on_service_discovered` is
invoked exactly N times, once per new-service event and in the same relative
order, then `on_all_discovered` is invoked exactly once, and no listener
invocation occurs after it — `start_browser` returns, never receiving the
remaining events. -/
theorem C1_browse_ordering (t : String) (evs : List BrowseCallbackParameters)
    (afn : BrowseCallbackParameters) (rest : List BrowseCallbackParameters)
    (hevs : ∀ e ∈ evs, e.event = AvahiBrowserEvent.AVAHI_BROWSER_NEW ∧
      e.name.isSome ∧ e.domain.isSome)
    (hafn : afn.event = AvahiBrowserEvent.AVAHI_BROWSER_ALL_FOR_NOW) :
    AvahiWrapper.start_browser t (evs ++ afn :: rest)
      = (evs.map (fun e => BrowseListenerCall.discovered (browseDescription t e))
          ++ [BrowseListenerCall.allDiscovered], LoopExit.returned) := by
  rw [start_browser_append_new t evs (afn :: rest) hevs,
    start_browser_all_for_now t afn rest hafn]

/-- Witness for C1: two well-formed new-service events, then all-for-now,
then a further event that is never received. -/
theorem C1_browse_ordering_witness :
    AvahiWrapper.start_browser "_http._tcp"
      ([{ event := .AVAHI_BROWSER_NEW, interface := 2, protocol := 0, name := some "a",
          service_type := some "_http._tcp", domain := some "local", flags := 0 },
        { event := .AVAHI_BROWSER_NEW, interface := 2, protocol := 1, name := some "b",
          service_type := some "_http._tcp", domain := some "local", flags := 0 }] ++
       { event := .AVAHI_BROWSER_ALL_FOR_NOW, interface := 0, protocol := 0, name := none,
         service_type := none, domain := none, flags := 0 } ::
       [{ event := .AVAHI_BROWSER_NEW, interface := 2, protocol := 0, name := some "c",
          service_type := some "_http._tcp", domain := some "local", flags := 0 }])
      = ([BrowseListenerCall.discovered
            { address := "", domain := "local", host_name := "", interface := 2,
              name := "a", port := 0, protocol := 0, txt := "", type_name := "_http._tcp" },
          BrowseListenerCall.discovered
            { address := "", domain := "local", host_name := "", interface := 2,
              name := "b", port := 0, protocol := 1, txt := "", type_name := "_http._tcp" },
          BrowseListenerCall.allDiscovered], LoopExit.returned) :=
  C1_browse_ordering "_http._tcp" _ _ _ (by decide) (by decide)

/-- C10: if a new-service browse event reaching the event loop carries an
absent name or an absent domain (null native pointer), `start_browser`
panics on the `unwrap` instead of delivering or skipping the event: the
events before it are delivered as usual, the loop ends panicked, and nothing
is delivered for the offending event or after it.  Delivery of a discovered
service therefore presupposes that both name and domain are present. -/
theorem C10_absent_field_panics (t : String)
    (pre : List BrowseCallbackParameters) (e : BrowseCallbackParameters)
    (rest : List BrowseCallbackParameters)
    (hpre : ∀ p ∈ pre, p.event = AvahiBrowserEvent.AVAHI_BROWSER_NEW ∧
      p.name.isSome ∧ p.domain.isSome)
    (he : e.event = AvahiBrowserEvent.AVAHI_BROWSER_NEW)
    (habs : e.name = none ∨ e.domain = none) :
    AvahiWrapper.start_browser t (pre ++ e :: rest)
      = (pre.map (fun p => BrowseListenerCall.discovered (browseDescription t p)),
         LoopExit.panicked) := by
  rw [start_browser_append_new t pre (e :: rest) hpre,
    start_browser_new_absent_panics t e rest he habs]
  simp

/-- Witness for C10: one well-formed event is delivered, then the loop
panics at an event with an absent name. -/
theorem C10_absent_field_panics_witness :
    AvahiWrapper.start_browser "_ipp._tcp"
      ([{ event := .AVAHI_BROWSER_NEW, interface := 1, protocol := 0, name := some "p",
          service_type := some "_ipp._tcp", domain := some "local", flags := 0 }] ++
       { event := .AVAHI_BROWSER_NEW, interface := 1, protocol := 0, name := none,
         service_type := some "_ipp._tcp", domain := some "local", flags := 0 } :: [])
      = ([BrowseListenerCall.discovered
            { address := "", domain := "local", host_name := "", interface := 1,
              name := "p", port := 0, protocol := 0, txt := "", type_name := "_ipp._tcp" }],
         LoopExit.panicked) :=
  C10_absent_field_panics "_ipp._tcp" _ _ _ (by decide) (by decide) (by decide)

/-- C7: every `ServiceDescription` delivered by the discovery (browsing)
path has `port = 0` and `address`/`host_name`/`txt` absent (the empty
string, which is how the wrapper writes an absent value into the
string-typed fields); every description delivered by the resolution path is
fully populated — each textual field, `txt` included, comes from a present
(`some`) value of the awaited event, and `port`/`interface`/`protocol` are
copied from it. -/
theorem C7_description_invariants :
    (∀ (t : String) (evs : List BrowseCallbackParameters) (s : ServiceDescription),
      BrowseListenerCall.discovered s ∈ (AvahiWrapper.start_browser t evs).1 →
        s.port = 0 ∧ s.address = "" ∧ s.host_name = "" ∧ s.txt = "" ∧ s.type_name = t) ∧
    (∀ (raw : ResolveCallbackParameters) (s : ServiceDescription),
      ResolveAction.resolvedCall s ∈ (AvahiWrapper.resolve raw).1 →
        raw.address = some s.address ∧ raw.domain = some s.domain ∧
        raw.host_name = some s.host_name ∧ raw.name = some s.name ∧
        raw.txt = some s.txt ∧ raw.service_type = some s.type_name ∧
        s.port = raw.port ∧ s.interface = raw.interface ∧ s.protocol = raw.protocol) := by
  constructor
  · intro t evs
    induction evs with
    | nil =>
      intro s hs
      simp [AvahiWrapper.start_browser] at hs
    | cons a l ih =>
      intro s hs
      obtain ⟨ev, pi, pp, nm, st, dm, fl⟩ := a
      cases ev <;>
        first
        | exact ih s hs
        | skip
      · -- AVAHI_BROWSER_NEW
        rcases nm with _ | n <;> rcases dm with _ | d
        · simp [AvahiWrapper.start_browser] at hs
        · simp [AvahiWrapper.start_browser] at hs
        · simp [AvahiWrapper.start_browser] at hs
        · rw [show (AvahiWrapper.start_browser t
              (({ event := .AVAHI_BROWSER_NEW, interface := pi, protocol := pp,
                  name := some n, service_type := st, domain := some d, flags := fl } :
                BrowseCallbackParameters) :: l)).1
              = BrowseListenerCall.discovered (browseDescription t
                  { event := .AVAHI_BROWSER_NEW, interface := pi, protocol := pp,
                    name := some n, service_type := st, domain := some d, flags := fl })
                :: (AvahiWrapper.start_browser t l).1 from rfl] at hs
          rcases List.mem_cons.mp hs with h | h
          · cases h
            exact ⟨rfl, rfl, rfl, rfl, rfl⟩
          · exact ih s h
      · -- AVAHI_BROWSER_ALL_FOR_NOW
        rw [show (AvahiWrapper.start_browser t
            (({ event := .AVAHI_BROWSER_ALL_FOR_NOW, interface := pi, protocol := pp,
                name := nm, service_type := st, domain := dm, flags := fl } :
              BrowseCallbackParameters) :: l)).1
            = [BrowseListenerCall.allDiscovered] from rfl] at hs
        simp at hs
  · intro raw s hs
    rw [AvahiWrapper.resolve.eq_def] at hs
    split at hs
    · rename_i address domain host_name nm txt st haddr hdom hhost hname htxt hst
      simp at hs
      subst hs
      exact ⟨haddr, hdom, hhost, hname, htxt, hst, rfl, rfl, rfl⟩
    · simp at hs

/-- Witness for C7: a concrete discovery-path description and a concrete
resolution-path description. -/
theorem C7_description_invariants_witness :
    (({ address := "", domain := "local", host_name := "", interface := 4, name := "svc",
        port := 0, protocol := 0, txt := "", type_name := "_ssh._tcp" } :
       ServiceDescription).port = 0 ∧
     ({ address := "", domain := "local", host_name := "", interface := 4, name := "svc",
        port := 0, protocol := 0, txt := "", type_name := "_ssh._tcp" } :
       ServiceDescription).address = "" ∧
     ({ address := "", domain := "local", host_name := "", interface := 4, name := "svc",
        port := 0, protocol := 0, txt := "", type_name := "_ssh._tcp" } :
       ServiceDescription).host_name = "" ∧
     ({ address := "", domain := "local", host_name := "", interface := 4, name := "svc",
        port := 0, protocol := 0, txt := "", type_name := "_ssh._tcp" } :
       ServiceDescription).txt = "" ∧
     ({ address := "", domain := "local", host_name := "", interface := 4, name := "svc",
        port := 0, protocol := 0, txt := "", type_name := "_ssh._tcp" } :
       ServiceDescription).type_name = "_ssh._tcp") ∧
    (({ event := .AVAHI_RESOLVER_FOUND, address := some "10.0.0.2", interface := 4,
        port := 22, protocol := 0, name := some "svc", service_type := some "_ssh._tcp",
        domain := some "local", host_name := some "h.local", txt := some "k=v",
        flags := 0 } : ResolveCallbackParameters).address = some "10.0.0.2") := by
  constructor
  · exact C7_description_invariants.1 "_ssh._tcp"
      [{ event := .AVAHI_BROWSER_NEW, interface := 4, protocol := 0, name := some "svc",
         service_type := some "_ssh._tcp", domain := some "local", flags := 0 }]
      _ (by decide)
  · exact (C7_description_invariants.2
      { event := .AVAHI_RESOLVER_FOUND, address := some "10.0.0.2", interface := 4,
        port := 22, protocol := 0, name := some "svc", service_type := some "_ssh._tcp",
        domain := some "local", host_name := some "h.local", txt := some "k=v", flags := 0 }
      { address := "10.0.0.2", domain := "local", host_name := "h.local", interface := 4,
        name := "svc", port := 22, protocol := 0, txt := "k=v", type_name := "_ssh._tcp" }
      (by decide)).1

/-- C4 (code bug): on the failure path of the awaited event — a resolver
event whose optional fields are null — `AvahiWrapper::resolve` panics at the
first `.unwrap()` before reaching `avahi_service_resolver_free`: the action
trace contains the resolver creation but no release, and the panic flag is
set.  The spec requires the successfully created resolver to be released
exactly once on both the success and the failure path. -/
theorem C4_resolver_leaked_on_failure :
    AvahiWrapper.resolve
      { event := .AVAHI_RESOLVER_FAILURE, address := none, interface := 0, port := 0,
        protocol := 0, name := none, service_type := none, domain := none,
        host_name := none, txt := none, flags := 0 }
      = ([ResolveAction.createResolver], true) := rfl

/-- C5 (as stated, counterexample): invoking the browsing trampoline after
the channel's receiving end has been dropped makes `sender.send(...).unwrap()`
panic — the panic is not caught, so it unwinds toward the foreign boundary
instead of being converted into a logged event. -/
theorem C5_counterexample :
    browse_callback false 0 0 .AVAHI_BROWSER_NEW none none none 0
      = CallbackOutcome.panicked := rfl

/-- C5 (amended): for every combination of native arguments, including null
string pointers, each trampoline decodes its arguments (null ↦ absent) into
one structured event and sends it without blocking, and does not panic —
**provided the channel's receiving end is still alive**; if the receiving
end has been dropped, the `unwrap` on the failed send panics, and no code
converts the panic into a logged event. -/
theorem C5_trampolines :
    (∀ (i p : Int) (ev : AvahiBrowserEvent) (nm st dm : Option (List Nat)) (fl : Nat),
      browse_callback true i p ev nm st dm fl
        = CallbackOutcome.sent
            { event := ev, interface := i, protocol := p, name := parse_c_string nm,
              service_type := parse_c_string st, domain := parse_c_string dm,
              flags := fl }) ∧
    (∀ (i p : Int) (ev : AvahiBrowserEvent) (nm st dm : Option (List Nat)) (fl : Nat),
      browse_callback false i p ev nm st dm fl = CallbackOutcome.panicked) ∧
    (∀ (i p : Int) (ev : AvahiResolverEvent) (nm st dm hn addr : Option (List Nat))
        (prt : Nat) (tx : Option (Option (List Nat))) (fl : Nat),
      resolve_callback true i p ev nm st dm hn addr prt tx fl
        = CallbackOutcome.sent
            { event := ev, address := parse_address addr, interface := i, port := prt,
              protocol := p, name := parse_c_string nm, service_type := parse_c_string st,
              domain := parse_c_string dm, host_name := parse_c_string hn,
              txt := (parse_txt tx).txt, flags := fl }) ∧
    (∀ (i p : Int) (ev : AvahiResolverEvent) (nm st dm hn addr : Option (List Nat))
        (prt : Nat) (tx : Option (Option (List Nat))) (fl : Nat),
      resolve_callback false i p ev nm st dm hn addr prt tx fl
        = CallbackOutcome.panicked) := by
  refine ⟨?_, ?_, ?_, ?_⟩ <;> intros <;> rfl

/-- C6: all three decode functions send a null pointer to the absent value,
never an error; and decoding the UTF-8 bytes of any string (the content of a
valid nul-terminated native string) yields exactly that string back. -/
theorem C6_marshal_roundtrip :
    parse_c_string none = none ∧
    parse_address none = none ∧
    parse_txt none = { txt := none, frees := 0 } ∧
    (∀ s : String, (∀ c ∈ s.data, c.toNat ≠ 0) →
      parse_c_string (some (utf8Encode s)) = some s) := by
  refine ⟨rfl, rfl, rfl, ?_⟩
  intro s _hnul
  show some (to_string_lossy (utf8Encode s)) = some s
  rw [to_string_lossy_encode]

/-- Witness for C6: the round-trip at a concrete nul-free string. -/
theorem C6_marshal_roundtrip_witness :
    parse_c_string (some (utf8Encode "ok")) = some "ok" :=
  C6_marshal_roundtrip.2.2.2 "ok" (by decide)

/-- C2: for every service type string `t`, the fallback adapter's
`start_discovery` (the `discover_services` path) invokes the discovered-one
listener exactly once, with a description whose `type_name` is `t` and whose
`domain` is `"local"` and all other fields the fixed synthetic defaults
(`name = "fake"`, `interface = 1`, IPv4, `port = 0`) or absent
(`address`/`host_name`/`txt`), then invokes the discovered-all listener
exactly once, and makes no further listener invocation afterward. -/
theorem C2_fake_discovery (t : String) :
    FakeAdapter.start_discovery t
      { on_service_discovered := true, on_all_discovered := true }
      = [FakeDiscoveryCall.discovered
          { address := none, domain := some "local", host_name := none, interface := 1,
            name := some "fake", port := 0, protocol := .IPv4, txt := none,
            type_name := some t },
         FakeDiscoveryCall.allDiscovered] := rfl

/-- C3: for every service description `d` passed to the fallback adapter's
`resolve`, the description delivered to the resolved-one listener preserves
`d.domain`, `d.interface`, `d.name`, `d.protocol` and `d.type_name`
unchanged, and sets `address`, `host_name`, `port` and `txt` to fixed
synthetic values (`"192.168.1.1"`, `"fake.local"`, `80`, the Xserve txt
blob) that do not depend on `d`; exactly one listener invocation occurs. -/
theorem C3_fake_resolve (d : ServiceInfo) :
    FakeAdapter.resolve d { on_service_resolved := true }
      = [FakeResolveCall.resolved
          { address := some "192.168.1.1", domain := d.domain,
            host_name := some "fake.local", interface := d.interface, name := d.name,
            port := 80, protocol := d.protocol, txt := some "\"model=Xserve\"",
            type_name := d.type_name }] := rfl

/-- C8: when native client creation returns a null handle, the wrapper
renders the native human-readable error string for the returned error code
and attaches it to the fatal termination of adapter construction (a single
creation attempt, no retry — the model consumes exactly one creation
outcome); on success the client handle is stored and no error is raised. -/
theorem C8_initialize_client (strerror : Int → String) (code : Int) (c : Nat) :
    AvahiWrapper.initialize_client strerror none code
      = Except.error ("Failed to create avahi client: " ++ strerror code) ∧
    AvahiWrapper.initialize_client strerror (some c) code = Except.ok (some c) :=
  ⟨rfl, rfl⟩

/-- C9: calling `stop_service_discovery` twice in succession releases no
resource twice — the second call releases nothing and leaves the state
unchanged — and calling it before any browsing has started (no active
browser) is a no-op; the fallback adapter's `stop_discovery` likewise does
nothing.  No error is possible: the operations are total. -/
theorem C9_stop_idempotent (st : AvahiWrapperState) :
    (AvahiServiceDiscoveryManager.stop_service_discovery
        (AvahiServiceDiscoveryManager.stop_service_discovery st).1).2 = [] ∧
    (AvahiServiceDiscoveryManager.stop_service_discovery
        (AvahiServiceDiscoveryManager.stop_service_discovery st).1).1
      = (AvahiServiceDiscoveryManager.stop_service_discovery st).1 ∧
    (st.service_browser = none →
      AvahiServiceDiscoveryManager.stop_service_discovery st = (st, [])) ∧
    FakeAdapter.stop_discovery = [] := by
  obtain ⟨cl, pl, sb⟩ := st
  rcases sb with _ | b
  · exact ⟨rfl, rfl, fun _ => rfl, rfl⟩
  · exact ⟨rfl, rfl, fun h => Option.noConfusion h, rfl⟩

/-- Witness for C9: stopping from the never-started state is a no-op. -/
theorem C9_stop_idempotent_witness :
    AvahiServiceDiscoveryManager.stop_service_discovery
      { client := none, poll := none, service_browser := none }
      = ({ client := none, poll := none, service_browser := none }, []) :=
  (C9_stop_idempotent
    { client := none, poll := none, service_browser := none }).2.2.1 rfl
